import Mathlib

/-!
Shallow embedding of the schema-to-struct generation core of
wangbaolong/database-struct (src/pkg/model/generate.go), together with
theorems checking the specification claims against it.

Conventions of the embedding:
- Go strings are Lean `String`; a Go `nil` pointer result is `Option.none`.
- A Go `panic` in the rendering path is modelled as `Option.none` propagating
  outward, so `goType` becomes `goTypeStr : String -> Option String` and the
  functions that call it become `Option`-valued.
- The jennifer code-builder statements are modelled by explicit records
  (`JenField`, `GoStmt`) holding exactly the data the source feeds into the
  builder, plus a plain-text renderer.
-/

namespace Model

/-- Go library function strings.TrimSpace on the character list: drop
whitespace from both ends. -/
def trimSpaceList (cs : List Char) : List Char :=
  ((cs.dropWhile Char.isWhitespace).reverse.dropWhile Char.isWhitespace).reverse

/-- Go library function strings.TrimSpace, lifted to `String`. -/
def trimSpace (s : String) : String :=
  String.mk (trimSpaceList s.data)

/-- Go library function strings.TrimPrefix, modelled on the character lists:
remove the leading part `pre` from `s` when present, otherwise return `s`
unchanged. -/
def trimPfx (s : String) (pre : String) : String :=
  if pre.data.isPrefixOf s.data then String.mk (s.data.drop pre.data.length) else s

/-- Split a character list at underscores, keeping empty segments. -/
def splitUnderscore (cs : List Char) : List (List Char) :=
  match cs with
  | [] => [[]]
  | c :: rest =>
    if c = '_' then [] :: splitUnderscore rest
    else
      match splitUnderscore rest with
      | [] => [[c]]
      | seg :: segs => (c :: seg) :: segs

/-- Capitalize the first character of one segment. -/
def capitalizeWord (w : List Char) : String :=
  match w with
  | [] => ""
  | ch :: rest => String.mk (ch.toUpper :: rest)

/-- Lowercase the first character of one segment. -/
def lowerWord (w : List Char) : String :=
  match w with
  | [] => ""
  | ch :: rest => String.mk (ch.toLower :: rest)

/-- Modelled from the spec: the Naming Normalizer function TitleCase is not
under src/ (only its callers are). Per section 4.1 it converts snake_case or
mixed-case input to a title-cased identifier; empty segments coming from
leading, trailing or consecutive underscores are dropped. -/
def TitleCase (s : String) : String :=
  String.join (((splitUnderscore s.data).filter (fun w => w ≠ [])).map capitalizeWord)

/-- Modelled from the spec: the Naming Normalizer function CamelCase is not
under src/. Per section 4.1 it produces a conventional serialization key:
first segment lowercased, later segments capitalized. -/
def CamelCase (s : String) : String :=
  match ((splitUnderscore s.data).filter (fun w => w ≠ [])) with
  | [] => ""
  | w :: ws => lowerWord w ++ String.join (ws.map capitalizeWord)

/-- Modelled from the spec: the helper OneLine is not under src/. The spec
requires comments to be collapsed to one line before embedding; newline
characters are replaced by spaces. -/
def OneLine (s : String) : String :=
  String.mk (s.data.map (fun ch => if ch = '\n' ∨ ch = '\r' then ' ' else ch))

/-- Constant DbTypeMySQL of the source. -/
def DbTypeMySQL : String := "mysql"

/-- Constant DbTypePostgreSQL of the source. -/
def DbTypePostgreSQL : String := "postgresql"

/-- The generation error vocabulary; ErrTypeNotSupported is the single error
value declared in the source file. -/
inductive GenErr where
  | ErrTypeNotSupported
  deriving DecidableEq, Repr

/-- The Filter pair of the source; the source field TablePrefix is spelled
TablePfx here. -/
structure Filter where
  TablePfx : String
  TableNamePattern : String
  deriving DecidableEq, Repr

/-- Source function NewFilter: trim both arguments, reject an empty pattern
by returning none (a Go nil pointer), otherwise build the Filter from the
trimmed values. -/
def NewFilter (pfx : String) (pattern : String) : Option Filter :=
  let pfx := trimSpace pfx
  let pattern := trimSpace pattern
  if pattern = "" then none
  else some { TablePfx := pfx, TableNamePattern := pattern }

/-- The Options structure of the source. -/
structure Options where
  DbType : String
  Dsn : String
  GenGormTag : Bool
  GormV1 : Bool
  GenJsonTag : Bool
  HtmlFile : String
  ModelDir : String
  ModelPackageName : String
  ModelSingleFile : Bool
  Filters : List Filter
  Exclude : List String
  Verbose : Bool
  deriving DecidableEq, Repr

/-- The Field structure of the source; the source field Type is spelled Typ
here because Type is a Lean keyword. -/
structure Field where
  Field : String
  Typ : String
  GoType : String
  Nullable : Bool
  Default : String
  Key : String
  Comment : String
  deriving DecidableEq, Repr

/-- Source function goType, reduced to the type token it appends: the switch
over Field.GoType. The final `panic("unknow gotype: ...")` of the source is
modelled as none. -/
def goTypeStr (g : String) : Option String :=
  if g = "int" then some "int"
  else if g = "uint" then some "uint"
  else if g = "int8" then some "int8"
  else if g = "uint8" then some "uint8"
  else if g = "int16" then some "int16"
  else if g = "uint16" then some "uint16"
  else if g = "int32" then some "int32"
  else if g = "uint32" then some "uint32"
  else if g = "int64" then some "int64"
  else if g = "uint64" then some "uint64"
  else if g = "string" then some "string"
  else if g = "time.Time" then some "time.Time"
  else if g = "float32" then some "float32"
  else if g = "float64" then some "float64"
  else if g = "[]byte" then some "[]byte"
  else none

/-- The gorm tag string built inside goFields of the source: start from
column and type, then conditionally append default, not null and
primary_key, in the order of the source. -/
def gormTagText (f : Field) : String :=
  let t := "column:" ++ f.Field ++ ";type:" ++ f.Typ
  let t := if f.Default ≠ "" then t ++ ";default:" ++ f.Default else t
  let t := if !f.Nullable then t ++ ";not null" else t
  let t := if f.Key = "PRI" then t ++ ";primary_key" else t
  t

/-- One rendered struct field as assembled by the loop body of goFields:
identifier, optional pointer marker, the base type token, the optional gorm
and json tag entries, the optional trailing comment. -/
structure JenField where
  id : String
  pointer : Bool
  baseType : String
  gorm : Option String
  json : Option String
  comment : Option String
  deriving DecidableEq, Repr

/-- The loop body of source function goFields for one Field; none models the
panic raised by goType on an unmapped GoType. -/
def renderField (options : Options) (f : Field) : Option JenField :=
  match goTypeStr f.GoType with
  | none => none
  | some b =>
    some { id := TitleCase f.Field
           pointer := f.Nullable
           baseType := b
           gorm := if options.GenGormTag then some (gormTagText f) else none
           json := if options.GenJsonTag then some (CamelCase f.Field) else none
           comment := if f.Comment ≠ "" then some (OneLine f.Comment) else none }

/-- Source function goFields: render the fields in order, collecting the
results; none models the panic propagating out of the loop. -/
def goFields (options : Options) (fields : List Field) : Option (List JenField) :=
  match fields with
  | [] => some []
  | f :: rest =>
    match renderField options f, goFields options rest with
    | some c, some cs => some (c :: cs)
    | _, _ => none

/-- The textual spelling of one field type: pointer marker then base type. -/
def fieldTypeText (c : JenField) : String :=
  (if c.pointer then "*" else "") ++ c.baseType

/-- The statement built by source function goStruct for one table: doc
comment, optional collapsed table comment, struct name, rendered fields, and
the optional table-name accessor carrying the returned literal. -/
structure GoStmt where
  docComment : String
  tableComment : Option String
  structName : String
  fields : List JenField
  tableNameAccessor : Option String
  deriving DecidableEq, Repr

/-- The Table structure of the source; the source field Prefix is spelled
Pfx here. GoStruct and goStatement are the derived rendering fields filled
by goStruct. -/
structure Table where
  Name : String
  Pfx : String
  Comment : String
  Fields : List Field
  GoStruct : String
  goStatement : Option GoStmt
  deriving DecidableEq, Repr

/-- The statement assembled by source function goStruct before it is stored
on the table; none models a panic from goFields. -/
def goStructStmt (options : Options) (table : Table) : Option GoStmt :=
  let name := TitleCase (trimPfx table.Name table.Pfx)
  match goFields options table.Fields with
  | none => none
  | some cs =>
    some { docComment := name ++ " table: " ++ table.Name
           tableComment := if table.Comment ≠ "" then some (OneLine table.Comment) else none
           structName := name
           fields := cs
           tableNameAccessor := if table.Pfx ≠ "" then some table.Name else none }

/-- Textual rendering of tag entries, mirroring the jennifer output with
keys in sorted order (gorm before json). -/
def renderTags (c : JenField) : String :=
  match c.gorm, c.json with
  | none, none => ""
  | some g, none => " `gorm:\"" ++ g ++ "\"`"
  | none, some j => " `json:\"" ++ j ++ "\"`"
  | some g, some j => " `gorm:\"" ++ g ++ "\" json:\"" ++ j ++ "\"`"

/-- Textual rendering of one struct field line. -/
def renderJenField (c : JenField) : String :=
  c.id ++ " " ++ fieldTypeText c ++ renderTags c ++
    (match c.comment with
     | none => ""
     | some m => " // " ++ m)

/-- Textual rendering of the whole statement, standing in for the GoString
method of the jennifer library (an external collaborator). -/
def renderStmt (st : GoStmt) : String :=
  "// " ++ st.docComment ++ "\n" ++
    (match st.tableComment with
     | none => ""
     | some m => "// " ++ m ++ "\n") ++
    "type " ++ st.structName ++ " struct \x7b\n" ++
    String.join (st.fields.map (fun c => "\t" ++ renderJenField c ++ "\n")) ++
    "\x7d\n" ++
    (match st.tableNameAccessor with
     | none => ""
     | some n =>
       "\nfunc (" ++ st.structName ++ ") TableName() string \x7b\n\treturn \"" ++
         n ++ "\"\n\x7d\n")

/-- Source function goStruct: build the statement and store the two derived
rendering fields on the table; every other field is copied through. -/
def goStruct (options : Options) (table : Table) : Option Table :=
  match goStructStmt options table with
  | none => none
  | some st => some { table with GoStruct := renderStmt st, goStatement := some st }

/-- Modelled from the spec: the per-dialect implementations mysql.dbStruct
and postgresql.dbStruct are not under src/ (only the dispatcher is), so
DbStruct is parametrized by them. The dispatch itself mirrors the switch of
the source: mysql and postgresql dispatch, anything else returns
ErrTypeNotSupported and no tables. -/
def DbStruct (mysqlImpl : Options → Except GenErr (List Table))
    (pgImpl : Options → Except GenErr (List Table))
    (options : Options) : Except GenErr (List Table) :=
  if options.DbType = DbTypeMySQL then mysqlImpl options
  else if options.DbType = DbTypePostgreSQL then pgImpl options
  else Except.error GenErr.ErrTypeNotSupported

/-- The canonical enumeration exactly as the spec words it (section 3, Field
GoType): signed and unsigned integers of width 8, 16, 32 and 64, string,
float32, float64, a byte-sequence type and a timestamp type. Stated for
comparison with goTypeStr, which the source defines. -/
def specCanonicalGoTypes : List String :=
  ["int8", "int16", "int32", "int64",
   "uint8", "uint16", "uint32", "uint64",
   "string", "float32", "float64", "[]byte", "time.Time"]

/-- The GoType values the source switch actually accepts, in source order. -/
def goTypeSupported : List String :=
  ["int", "uint", "int8", "uint8", "int16", "uint16",
   "int32", "uint32", "int64", "uint64",
   "string", "time.Time", "float32", "float64", "[]byte"]

/-- A concrete Options value with both tag options enabled, used by the
concrete evaluations below. -/
def optsAll : Options :=
  ⟨"mysql", "", true, false, true, "", "", "", false, [], [], false⟩

/-- optsAll with an unsupported dialect tag. -/
def optsSqlite : Options := { optsAll with DbType := "sqlite" }

/-- A dialect implementation stub returning no tables. -/
def okNone : Options → Except GenErr (List Table) := fun _ => Except.ok []

/-- A concrete prefixed table with a comment and no fields. -/
def tbl0 : Table := ⟨"t_user", "t_", "users", [], "", none⟩

/-- A concrete table with no matched prefix and no comment. -/
def tblNoPfx : Table := ⟨"logs", "", "", [], "", none⟩

/-- The statement goStructStmt builds for tbl0. -/
def st0 : GoStmt := ⟨"User table: t_user", some "users", "User", [], some "t_user"⟩

/-- The statement goStructStmt builds for tblNoPfx. -/
def stNoPfx : GoStmt := ⟨"Logs table: logs", none, "Logs", [], none⟩

/-- tbl0 with its derived rendering fields filled in. -/
def tbl0r : Table := { tbl0 with GoStruct := renderStmt st0, goStatement := some st0 }

/-- A nullable bigint column. -/
def fldNullable : Field := ⟨"num", "bigint", "int64", true, "", "", ""⟩

/-- The non-nullable primary-key column of the spec example. -/
def fldPri : Field := ⟨"id", "int", "int", false, "0", "PRI", ""⟩

/-- The rendered field for fldNullable under optsAll. -/
def jfNullable : JenField :=
  ⟨"Num", true, "int64", some "column:num;type:bigint", some "num", none⟩

/-- The rendered field for fldPri under optsAll. -/
def jfPri : JenField :=
  ⟨"Id", false, "int", some "column:id;type:int;default:0;not null;primary_key",
   some "id", none⟩

/-- A string of only whitespace characters trims to the empty string. -/
theorem trimSpace_of_all_ws (q : String)
    (h : q.data.all Char.isWhitespace = true) : trimSpace q = "" := by
  unfold trimSpace trimSpaceList
  rw [List.dropWhile_eq_nil_iff.mpr (fun x hx => List.all_eq_true.mp h x hx)]
  rfl

/-- Appending to the empty string on the left is the identity. -/
theorem empty_append_str (s : String) : "" ++ s = s := by
  apply String.ext
  rw [String.data_append]
  rfl

/-- The character data of the empty string literal. -/
theorem data_empty_str : ("" : String).data = [] := rfl

/-- C6: the Filter factory NewFilter returns none (no filter) — not a crash
and not an error value — whenever the supplied pattern is the empty string,
and every Filter it does construct carries a non-empty pattern, so an
empty-pattern Filter can never be constructed. -/
theorem c6_NewFilter_empty_pattern :
    (∀ p : String, NewFilter p "" = none) ∧
    (∀ (p q : String) (f : Filter), NewFilter p q = some f →
      f.TableNamePattern ≠ "") := by
  refine ⟨fun p => rfl, fun p q f h => ?_⟩
  unfold NewFilter at h
  by_cases hq : trimSpace q = ""
  · simp [hq] at h
  · simp [hq] at h
    rw [← h]
    exact hq

/-- C6 witness: concrete inputs for both parts. -/
theorem c6_NewFilter_empty_pattern_witness :
    NewFilter "t" "" = none ∧
      Filter.TableNamePattern ⟨"t_", "t_.*"⟩ ≠ "" :=
  ⟨c6_NewFilter_empty_pattern.1 "t",
   c6_NewFilter_empty_pattern.2 "t_" "t_.*" ⟨"t_", "t_.*"⟩ (by decide)⟩

/-- C10: NewFilter trims whitespace from both arguments before any check: a
pattern of only whitespace is rejected exactly like the empty pattern, and
any Filter it constructs stores the trimmed values, never the raw inputs. -/
theorem c10_NewFilter_trim_behavior :
    ∀ p q : String,
      (q.data.all Char.isWhitespace = true → NewFilter p q = none) ∧
      (∀ f : Filter, NewFilter p q = some f →
        f.TablePfx = trimSpace p ∧ f.TableNamePattern = trimSpace q) := by
  intro p q
  constructor
  · intro hws
    unfold NewFilter
    simp [trimSpace_of_all_ws q hws]
  · intro f h
    unfold NewFilter at h
    by_cases hq : trimSpace q = ""
    · simp [hq] at h
    · simp [hq] at h
      rw [← h]
      exact ⟨rfl, rfl⟩

/-- C10 witness: a whitespace-only pattern is rejected, and raw inputs with
surrounding whitespace are stored trimmed. -/
theorem c10_NewFilter_trim_behavior_witness :
    NewFilter "x" "  " = none ∧
      (Filter.TablePfx ⟨"a", "b*"⟩ = trimSpace " a " ∧
       Filter.TableNamePattern ⟨"a", "b*"⟩ = trimSpace " b* ") :=
  ⟨(c10_NewFilter_trim_behavior "x" "  ").1 (by decide),
   (c10_NewFilter_trim_behavior " a " " b* ").2 ⟨"a", "b*"⟩ (by decide)⟩

/-- C9: goStruct writes only the derived rendering fields GoStruct and
goStatement; Name, Pfx (the source Prefix), Comment and Fields — and with
them the contents of every contained Field — are unchanged by rendering. -/
theorem c9_goStruct_frame :
    ∀ (options : Options) (t t2 : Table), goStruct options t = some t2 →
      t2.Name = t.Name ∧ t2.Pfx = t.Pfx ∧ t2.Comment = t.Comment ∧
        t2.Fields = t.Fields := by
  intro options t t2 h
  unfold goStruct at h
  cases hst : goStructStmt options t with
  | none => rw [hst] at h; cases h
  | some st =>
    rw [hst] at h
    injection h with h2
    subst h2
    exact ⟨rfl, rfl, rfl, rfl⟩

/-- C9 witness: rendering a concrete table leaves its model fields intact. -/
theorem c9_goStruct_frame_witness :
    goStruct optsAll tbl0 = some tbl0r ∧
      (tbl0r.Name = tbl0.Name ∧ tbl0r.Pfx = tbl0.Pfx ∧
       tbl0r.Comment = tbl0.Comment ∧ tbl0r.Fields = tbl0.Fields) :=
  ⟨by decide, c9_goStruct_frame optsAll tbl0 tbl0r (by decide)⟩

/-- C4: the rendered statement carries a table-name accessor returning
exactly the raw table name iff the Pfx of the table (the source Prefix) is
non-empty; a table with an empty Pfx never gets the accessor. -/
theorem c4_accessor_iff_pfx :
    ∀ (options : Options) (t : Table) (st : GoStmt),
      goStructStmt options t = some st →
        (t.Pfx ≠ "" → st.tableNameAccessor = some t.Name) ∧
        (t.Pfx = "" → st.tableNameAccessor = none) := by
  intro options t st h
  unfold goStructStmt at h
  cases hgf : goFields options t.Fields with
  | none => rw [hgf] at h; cases h
  | some cs =>
    rw [hgf] at h
    injection h with h2
    subst h2
    constructor
    · intro hp; simp [hp]
    · intro hp; simp [hp]

/-- C4 witness: a prefixed table gets the accessor returning its raw name, a
prefix-less table gets none. -/
theorem c4_accessor_iff_pfx_witness :
    (goStructStmt optsAll tbl0 = some st0 ∧ Table.Pfx tbl0 ≠ "" ∧
      st0.tableNameAccessor = some tbl0.Name) ∧
    (goStructStmt optsAll tblNoPfx = some stNoPfx ∧
      stNoPfx.tableNameAccessor = none) :=
  ⟨⟨by decide, by decide,
    (c4_accessor_iff_pfx optsAll tbl0 st0 (by decide)).1 (by decide)⟩,
   ⟨by decide,
    (c4_accessor_iff_pfx optsAll tblNoPfx stNoPfx (by decide)).2 (by decide)⟩⟩

/-- C7: the rendered struct is named TitleCase of the table name with the
Pfx stripped, its first line is the doc comment StructName table: Name, and
the collapsed table comment follows iff the Comment is non-empty. -/
theorem c7_struct_header :
    ∀ (options : Options) (t : Table) (st : GoStmt),
      goStructStmt options t = some st →
        st.structName = TitleCase (trimPfx t.Name t.Pfx) ∧
        st.docComment = st.structName ++ " table: " ++ t.Name ∧
        (t.Comment ≠ "" → st.tableComment = some (OneLine t.Comment)) ∧
        (t.Comment = "" → st.tableComment = none) := by
  intro options t st h
  unfold goStructStmt at h
  cases hgf : goFields options t.Fields with
  | none => rw [hgf] at h; cases h
  | some cs =>
    rw [hgf] at h
    injection h with h2
    subst h2
    refine ⟨rfl, rfl, fun hc => ?_, fun hc => ?_⟩
    · simp [hc]
    · simp [hc]

/-- C7 witness: the header of a concrete commented, prefixed table. -/
theorem c7_struct_header_witness :
    goStructStmt optsAll tbl0 = some st0 ∧
      (st0.structName = TitleCase (trimPfx tbl0.Name tbl0.Pfx) ∧
       st0.docComment = st0.structName ++ " table: " ++ tbl0.Name ∧
       st0.tableComment = some (OneLine tbl0.Comment)) :=
  ⟨by decide, by
    have h := c7_struct_header optsAll tbl0 st0 (by decide)
    exact ⟨h.1, h.2.1, h.2.2.1 (by decide)⟩⟩

/-- C5: DbStruct returns ErrTypeNotSupported and no tables whenever the
DbType is neither the mysql tag nor the postgresql tag, and for exactly
those two tags it dispatches to the corresponding dialect implementation. -/
theorem c5_DbStruct_dispatch :
    ∀ (m p : Options → Except GenErr (List Table)) (options : Options),
      (options.DbType ≠ DbTypeMySQL → options.DbType ≠ DbTypePostgreSQL →
        DbStruct m p options = Except.error GenErr.ErrTypeNotSupported) ∧
      (options.DbType = DbTypeMySQL → DbStruct m p options = m options) ∧
      (options.DbType = DbTypePostgreSQL → DbStruct m p options = p options) := by
  intro m p options
  refine ⟨fun h1 h2 => ?_, fun h1 => ?_, fun h1 => ?_⟩ <;> unfold DbStruct
  · rw [if_neg h1, if_neg h2]
  · rw [if_pos h1]
  · by_cases hm : options.DbType = DbTypeMySQL
    · rw [hm] at h1
      exact absurd h1 (by decide)
    · rw [if_neg hm, if_pos h1]

/-- C5 witness: an unsupported tag yields the error, the mysql tag
dispatches to the mysql implementation. -/
theorem c5_DbStruct_dispatch_witness :
    (Options.DbType optsSqlite ≠ DbTypeMySQL ∧
     Options.DbType optsSqlite ≠ DbTypePostgreSQL ∧
     DbStruct okNone okNone optsSqlite = Except.error GenErr.ErrTypeNotSupported) ∧
    (Options.DbType optsAll = DbTypeMySQL ∧
     DbStruct okNone okNone optsAll = okNone optsAll) :=
  ⟨⟨by decide, by decide,
    (c5_DbStruct_dispatch okNone okNone optsSqlite).1 (by decide) (by decide)⟩,
   ⟨by decide, (c5_DbStruct_dispatch okNone okNone optsAll).2.1 (by decide)⟩⟩

/-- C3: the rendered field type is the pointer wrapper around the mapped
base type when the Field is nullable and the bare base type otherwise;
nullability is never silently dropped. -/
theorem c3_nullable_pointer_type :
    ∀ (options : Options) (f : Field) (c : JenField),
      renderField options f = some c →
        c.pointer = f.Nullable ∧
        goTypeStr f.GoType = some c.baseType ∧
        fieldTypeText c = (if f.Nullable then "*" ++ c.baseType else c.baseType) := by
  intro options f c h
  unfold renderField at h
  cases hg : goTypeStr f.GoType with
  | none => rw [hg] at h; cases h
  | some b =>
    rw [hg] at h
    injection h with h2
    subst h2
    refine ⟨rfl, rfl, ?_⟩
    unfold fieldTypeText
    by_cases hn : f.Nullable
    · simp [hn]
    · simp [hn, empty_append_str]

/-- C3 witness: a nullable int64 column renders with the pointer wrapper, a
non-nullable int column renders bare. -/
theorem c3_nullable_pointer_type_witness :
    (renderField optsAll fldNullable = some jfNullable ∧
      (jfNullable.pointer = fldNullable.Nullable ∧
       goTypeStr fldNullable.GoType = some jfNullable.baseType ∧
       fieldTypeText jfNullable =
         (if fldNullable.Nullable then "*" ++ jfNullable.baseType
          else jfNullable.baseType))) ∧
    (renderField optsAll fldPri = some jfPri ∧
      (jfPri.pointer = fldPri.Nullable ∧
       goTypeStr fldPri.GoType = some jfPri.baseType ∧
       fieldTypeText jfPri =
         (if fldPri.Nullable then "*" ++ jfPri.baseType else jfPri.baseType))) :=
  ⟨⟨by decide, c3_nullable_pointer_type optsAll fldNullable jfNullable (by decide)⟩,
   ⟨by decide, c3_nullable_pointer_type optsAll fldPri jfPri (by decide)⟩⟩

/-- C8: goFields emits exactly one rendered field per input Field, in the
same order; nothing is reordered, dropped or duplicated. -/
theorem c8_fields_order_preserved :
    ∀ (options : Options) (fs : List Field) (cs : List JenField),
      goFields options fs = some cs →
        cs.length = fs.length ∧
        List.Forall₂ (fun f c => renderField options f = some c) fs cs := by
  intro options fs
  induction fs with
  | nil =>
    intro cs h
    unfold goFields at h
    injection h with h2
    subst h2
    exact ⟨rfl, List.Forall₂.nil⟩
  | cons f rest ih =>
    intro cs h
    unfold goFields at h
    cases hr : renderField options f with
    | none =>
      cases hrest : goFields options rest with
      | none => rw [hr, hrest] at h; cases h
      | some cs2 => rw [hr, hrest] at h; cases h
    | some c =>
      cases hrest : goFields options rest with
      | none => rw [hr, hrest] at h; cases h
      | some cs2 =>
        rw [hr, hrest] at h
        injection h with h2
        subst h2
        have ihh := ih cs2 hrest
        exact ⟨by simp [ihh.1], List.Forall₂.cons hr ihh.2⟩

/-- C8 witness: a concrete two-column table renders to two fields in input
order. -/
theorem c8_fields_order_preserved_witness :
    goFields optsAll [fldPri, fldNullable] = some [jfPri, jfNullable] ∧
      ([jfPri, jfNullable].length = [fldPri, fldNullable].length ∧
       List.Forall₂ (fun f c => renderField optsAll f = some c)
         [fldPri, fldNullable] [jfPri, jfNullable]) :=
  ⟨by decide,
   c8_fields_order_preserved optsAll [fldPri, fldNullable] [jfPri, jfNullable]
     (by decide)⟩

/-- C1: with the ORM tag option enabled, the gorm tag of every rendered
field is column and raw type, then default iff Default is non-empty, then
not null iff not nullable, then primary_key iff Key is PRI, in exactly this
order; the spec example field yields exactly the expected tag. -/
theorem c1_gorm_tag_order :
    (∀ (options : Options) (f : Field) (c : JenField),
      options.GenGormTag = true → renderField options f = some c →
        c.gorm = some ("column:" ++ f.Field ++ ";type:" ++ f.Typ ++
          (if f.Default ≠ "" then ";default:" ++ f.Default else "") ++
          (if !f.Nullable then ";not null" else "") ++
          (if f.Key = "PRI" then ";primary_key" else ""))) ∧
    gormTagText ⟨"id", "int", "int", false, "0", "PRI", ""⟩ =
      "column:id;type:int;default:0;not null;primary_key" := by
  constructor
  · intro options f c hopt h
    unfold renderField at h
    cases hg : goTypeStr f.GoType with
    | none => rw [hg] at h; cases h
    | some b =>
      rw [hg] at h
      injection h with h2
      subst h2
      show (if options.GenGormTag then some (gormTagText f) else none) = _
      rw [hopt]
      simp only [if_true]
      apply congrArg some
      unfold gormTagText
      split_ifs <;>
        (apply String.ext
         simp [String.data_append, List.append_assoc, data_empty_str])
  · decide

/-- C1 witness: the spec example evaluated through renderField. -/
theorem c1_gorm_tag_order_witness :
    Options.GenGormTag optsAll = true ∧
      renderField optsAll fldPri = some jfPri ∧
      jfPri.gorm = some ("column:" ++ fldPri.Field ++ ";type:" ++ fldPri.Typ ++
        (if fldPri.Default ≠ "" then ";default:" ++ fldPri.Default else "") ++
        (if !fldPri.Nullable then ";not null" else "") ++
        (if fldPri.Key = "PRI" then ";primary_key" else "")) :=
  ⟨by decide, by decide,
   c1_gorm_tag_order.1 optsAll fldPri jfPri (by decide) (by decide)⟩

/-- C2 counterexample: the GoType value int is outside the enumeration the
claim fixes (widths 8, 16, 32, 64 only), yet goType succeeds on it instead
of failing. -/
theorem c2_goType_counterexample :
    (goTypeStr "int").isSome = true ∧ "int" ∉ specCanonicalGoTypes := by
  decide

set_option maxHeartbeats 1600000 in
/-- C2 amended: goType succeeds exactly on the source enumeration, which is
the spec enumeration extended with the width-unspecified integers int and
uint, and panics on every other GoType. -/
theorem c2_goType_exact_support :
    (∀ g : String, (goTypeStr g).isSome = true ↔ g ∈ goTypeSupported) ∧
    (∀ g : String,
      g ∈ goTypeSupported ↔ (g ∈ specCanonicalGoTypes ∨ g = "int" ∨ g = "uint")) := by
  constructor
  · intro g
    constructor
    · intro h
      by_contra hm
      simp only [goTypeSupported, List.mem_cons, List.not_mem_nil, or_false] at hm
      push_neg at hm
      obtain ⟨n1, n2, n3, n4, n5, n6, n7, n8, n9, n10, n11, n12, n13, n14, n15⟩ := hm
      unfold goTypeStr at h
      rw [if_neg n1, if_neg n2, if_neg n3, if_neg n4, if_neg n5, if_neg n6,
          if_neg n7, if_neg n8, if_neg n9, if_neg n10, if_neg n11, if_neg n12,
          if_neg n13, if_neg n14, if_neg n15] at h
      exact absurd h (by simp)
    · intro hm
      simp only [goTypeSupported] at hm
      fin_cases hm <;> rfl
  · intro g
    constructor
    · intro hm
      simp only [goTypeSupported] at hm
      fin_cases hm <;> decide
    · intro hm
      rcases hm with hm | hm | hm
      · simp only [specCanonicalGoTypes] at hm
        fin_cases hm <;> decide
      · subst hm; decide
      · subst hm; decide

end Model
